import Mathlib

/-!
Verification development for the IoTPotatoG5 repository (Potato Health Monitor).

The repository has three Python modules:
  * `aws_utils.py`      — real collaborators (S3 upload, Lex, SMHI weather, geocoding);
  * `aws_utils_stub.py` — stubbed collaborators used for UI testing;
  * `5_streamlit_app.py`— the Streamlit session coordinator; it imports `aws_utils_stub`.

This file gives a shallow embedding of those modules.  Machine conventions:
  * geographic coordinates are represented in hundredths of a degree as `Int × Int`
    (e.g. (59.86, 17.64) becomes (5986, 1764)); the code performs no arithmetic on them;
  * weather readings are carried as opaque `Int` values (the code performs no
    arithmetic on readings either, it only stores and displays them);
  * external effects (HTTP outcomes, Lex responses, S3 success, fresh uuid tokens)
    are passed in explicitly as parameters of the embedded functions.
-/

/-- Python `str.lower` restricted to the character ranges used by this code base:
ASCII `A`-`Z` and the Latin-1 uppercase letters `À`(192)–`Þ`(222) except `×`(215),
each of which Python lowers by adding 32.  All other characters are unchanged. -/
def pyLowerChar (c : Char) : Char :=
  if 65 ≤ c.toNat ∧ c.toNat ≤ 90 then Char.ofNat (c.toNat + 32)
  else if 192 ≤ c.toNat ∧ c.toNat ≤ 222 ∧ c.toNat ≠ 215 then Char.ofNat (c.toNat + 32)
  else c

/-- Python `str.lower` on a whole string (character-wise, see `pyLowerChar`). -/
def pyLower (s : String) : String := ⟨s.data.map pyLowerChar⟩

/-- Does `pat` occur at the start of `l`?  (Helper for Python's `in` on strings.) -/
def charsHasPre : List Char → List Char → Bool
  | [], _ => true
  | _ :: _, [] => false
  | p :: ps, c :: cs => p == c && charsHasPre ps cs

/-- Does `pat` occur as a contiguous run anywhere in `l`? -/
def charsHasSub (pat : List Char) : List Char → Bool
  | [] => charsHasPre pat []
  | c :: cs => charsHasPre pat (c :: cs) || charsHasSub pat cs

/-- Python's `pat in s` substring test. -/
def strContainsSub (s pat : String) : Bool := charsHasSub pat.data s.data

/-- Python `os.path.basename` (posix): the part of the path after the last `/`. -/
def os_path_basename (p : String) : String :=
  ⟨(p.data.reverse.takeWhile (fun c => c ≠ '/')).reverse⟩

/-- Fuel-indexed worker for `pyReplace`; the fuel is an upper bound on the number
of characters still to scan, so the recursion is structural. -/
def pyReplaceFuel (pat rep : List Char) : Nat → List Char → List Char
  | _, [] => []
  | 0, l => l
  | fuel + 1, c :: cs =>
    if charsHasPre pat (c :: cs) then
      rep ++ pyReplaceFuel pat rep fuel (List.drop (pat.length - 1) cs)
    else
      c :: pyReplaceFuel pat rep fuel cs

/-- Python `s.replace(pat, rep)` for a non-empty pattern: replace non-overlapping
occurrences left to right.  (Both uses in the source have non-empty patterns.) -/
def pyReplace (s pat rep : String) : String :=
  if pat = "" then s else ⟨pyReplaceFuel pat.data rep.data s.data.length s.data⟩

/-- Python `"sep".join(l)`. -/
def pyJoin (sep : String) : List String → String
  | [] => ""
  | [x] => x
  | x :: y :: xs => x ++ sep ++ pyJoin sep (y :: xs)

/-- One reading in a weather snapshot: either the string `"N/A"` or a numeric value. -/
inductive Reading
  | na
  | val (v : Int)
deriving DecidableEq

/-- The dictionary built by `get_weather_for_location` in both modules:
`{"temp": .., "humidity": .., "precip": .., "error": ..}`. -/
structure WeatherResult where
  temp : Reading
  humidity : Reading
  precip : Reading
  error : Option String
deriving DecidableEq

namespace AwsUtils

/-- `LOCATION_COORDS` from `aws_utils.py`, in source order, coordinates in
hundredths of a degree. -/
def LOCATION_COORDS : List (String × (Int × Int)) :=
  [("uppsala", (5986, 1764)),
   ("stockholm", (5933, 1806)),
   ("malmö", (5560, 1300)),
   ("malmo", (5560, 1300)),
   ("göteborg", (5771, 1197)),
   ("goteborg", (5771, 1197)),
   ("örebro", (5927, 1521)),
   ("orebro", (5927, 1521)),
   ("linköping", (5841, 1562)),
   ("linkoping", (5841, 1562)),
   ("västerås", (5961, 1655)),
   ("vasteras", (5961, 1655)),
   ("lund", (5570, 1319))]

/-- `DEFAULT_LOCATION` from `aws_utils.py`. -/
def DEFAULT_LOCATION : String := "uppsala"

/-- `DEFAULT_COORDS = LOCATION_COORDS[DEFAULT_LOCATION]` from `aws_utils.py`. -/
def DEFAULT_COORDS : Int × Int := (5986, 1764)

/-- `get_coordinates` from `aws_utils.py`: empty (falsy) input falls back to the
default coordinates; otherwise the lowered name is looked up in
`LOCATION_COORDS`, falling back to the default coordinates when absent. -/
def get_coordinates (location_name : String) : Int × Int :=
  if location_name = "" then DEFAULT_COORDS
  else
    match LOCATION_COORDS.lookup (pyLower location_name) with
    | some coords => coords
    | none => DEFAULT_COORDS

/-- One element of a forecast's `"parameters"` array in the SMHI payload:
a parameter name and its (possibly empty) list of values. -/
structure SmhiParam where
  name : String
  values : List Int
deriving DecidableEq

/-- One element of the `"timeSeries"` array in the SMHI payload. -/
structure SmhiForecast where
  parameters : List SmhiParam
deriving DecidableEq

/-- A parsed SMHI JSON body.  A missing `"timeSeries"` key and an empty
`"timeSeries"` array are both falsy in Python and are handled identically by the
source, so both are modelled as the empty list. -/
structure SmhiData where
  timeSeries : List SmhiForecast
deriving DecidableEq

/-- The outcome of the `requests.get` call inside `get_weather_for_location`. -/
inductive FetchOutcome
  | requestError
  | jsonError
  | ok (data : SmhiData)
  | unexpectedError
deriving DecidableEq

/-- The dict comprehension `{param["name"]: param["values"][0] for param in ...}`:
fails (Python `IndexError`, caught by the generic handler) when some parameter
has no values; otherwise yields the name/first-value pairs in order. -/
def extractParams : List SmhiParam → Option (List (String × Int))
  | [] => some []
  | p :: rest =>
    match p.values with
    | [] => none
    | v :: _ => (extractParams rest).map (fun l => (p.name, v) :: l)

/-- Python dict lookup on an association list built by insertion in order:
a later binding of the same key overwrites an earlier one, so look up in the
reversed list. -/
def dictGet (l : List (String × Int)) (k : String) : Option Int :=
  l.reverse.lookup k

/-- `parameters.get(key, "N/A")` as used by `get_weather_for_location`. -/
def readingOf (o : Option Int) : Reading :=
  match o with
  | none => Reading.na
  | some v => Reading.val v

/-- `get_weather_for_location` from `aws_utils.py`.  The HTTP interaction is
supplied as a `FetchOutcome`; every branch of the Python function returns a
result dict (all exception classes are caught), which this total function
mirrors case by case, including the error strings. -/
def get_weather_for_location (outcome : FetchOutcome) (location_name : String) :
    WeatherResult :=
  let _coords := get_coordinates location_name
  let base : WeatherResult := ⟨Reading.na, Reading.na, Reading.na, none⟩
  match outcome with
  | FetchOutcome.requestError => { base with error := some "Could not reach weather service." }
  | FetchOutcome.jsonError => { base with error := some "Error reading weather data." }
  | FetchOutcome.unexpectedError => { base with error := some "Unexpected weather error." }
  | FetchOutcome.ok data =>
    match data.timeSeries with
    | [] => { base with error := some "SMHI API data format error." }
    | first_forecast :: _ =>
      match extractParams first_forecast.parameters with
      | none => { base with error := some "Unexpected weather error." }
      | some parameters =>
        { temp := readingOf (dictGet parameters "t"),
          humidity := readingOf (dictGet parameters "r"),
          precip := readingOf (dictGet parameters "pmean"),
          error := none }

/-- `upload_to_s3` from `aws_utils.py`.  `token` stands for the fresh
`uuid.uuid4()` value, `s3_ok` for whether `s3_client.upload_fileobj` succeeds
(on `ClientError` or any other exception the function returns `None`), and
`file_obj_filename` for `getattr(file_obj, "filename", None)`.  Note that the
sanitising branch runs only when `object_name` is `None`: a caller-supplied
`object_name` is used verbatim as the key. -/
def upload_to_s3 (s3_ok : Bool) (token : String) (file_obj_filename : Option String)
    (object_name_arg : Option String) : Option String :=
  let object_name :=
    match object_name_arg with
    | some n => n
    | none =>
      match file_obj_filename with
      | none => "uploads/" ++ token
      | some fn =>
        if fn = "" then "uploads/" ++ token
        else
          "uploads/" ++ token ++ "-" ++
            (pyReplace (pyReplace (os_path_basename fn) ".." "_") "/" "_")
  if s3_ok then some object_name else none

/-- A message in a Lex `recognize_text` response. -/
structure LexMsg where
  contentType : Option String
  content : String
deriving DecidableEq

/-- The outcome of the `lex_client.recognize_text` call: a response (whose
`"messages"` key may be absent, modelled by `none`), a `ClientError` carrying
an optional error code, or any other exception. -/
inductive LexOutcome
  | ok (response_messages : Option (List LexMsg))
  | clientError (error_code : Option String)
  | unexpectedError
deriving DecidableEq

/-- How Python's f-string renders the (possibly `None`) error code. -/
def codeRepr : Option String → String
  | some c => c
  | none => "None"

/-- The reply built in the generic `ClientError` branch of `post_text_to_lex`:
it interpolates the error code, so it is not one fixed string. -/
def genericLexReply (error_code : Option String) : String :=
  "An error occurred communicating with the bot (" ++ (codeRepr error_code ++ ").")

/-- `post_text_to_lex` from `aws_utils.py` (the Lex call outcome is supplied as
a parameter; the bot/alias/session/text arguments do not influence the returned
messages and are omitted). -/
def post_text_to_lex (outcome : LexOutcome) : List String :=
  match outcome with
  | LexOutcome.ok response_messages =>
    let msgs := match response_messages with
      | some ms => ms
      | none => []
    let messages := msgs.filterMap
      (fun m => if m.contentType = some "PlainText" then some m.content else none)
    if messages.isEmpty then ["Sorry, I didn't get a response. Try again."]
    else messages
  | LexOutcome.clientError error_code =>
    if error_code = some "AccessDeniedException" then
      ["Error: Access denied when calling Lex. Check UI credentials."]
    else if error_code = some "ResourceNotFoundException" then
      ["Error: Lex bot or alias not found. Check configuration."]
    else
      [genericLexReply error_code]
  | LexOutcome.unexpectedError => ["An unexpected error occurred."]

end AwsUtils

namespace AwsUtilsStub

/-- `LOCATION_COORDS` from `aws_utils_stub.py` (note the capitalised keys and
the smaller key set, different from `aws_utils.py`). -/
def LOCATION_COORDS : List (String × (Int × Int)) :=
  [("Uppsala", (5986, 1764)),
   ("Stockholm", (5933, 1806)),
   ("Malmö", (5560, 1300)),
   ("Göteborg", (5771, 1197)),
   ("Örebro", (5927, 1521)),
   ("Linköping", (5841, 1562)),
   ("Vasteras", (5961, 1655)),
   ("Lund", (5570, 1319))]

/-- `DEFAULT_LOCATION` from `aws_utils_stub.py` ("Default for stub"). -/
def DEFAULT_LOCATION : String := "Stockholm"

/-- `get_weather_for_location` from `aws_utils_stub.py`: always succeeds with
fake readings derived from the length of the location name.  Temperature and
precipitation are held in tenths (one decimal place, as produced by Python's
`round(x, 1)`), humidity is an integer. -/
def get_weather_for_location (location_name : String) : WeatherResult :=
  let n : Int := location_name.length
  { temp := Reading.val (100 + 10 * (n % 15)),
    humidity := Reading.val (60 + n % 30),
    precip := Reading.val (n % 5),
    error := none }

/-- `upload_to_s3` from `aws_utils_stub.py`: always succeeds, always builds
`uploads/<token>-<basename(object_name)>`, falling back to the file object's
filename (default "unknown_file") when no name is supplied. -/
def upload_to_s3 (token : String) (file_obj_filename : Option String)
    (object_name_arg : Option String) : String :=
  let original_filename :=
    match file_obj_filename with
    | some f => f
    | none => "unknown_file"
  let object_name :=
    match object_name_arg with
    | some n => n
    | none => original_filename
  "uploads/" ++ token ++ "-" ++ os_path_basename object_name

/-- `post_text_to_lex` from `aws_utils_stub.py`: canned echo replies selected by
substring tests on the lowercased input. -/
def post_text_to_lex (bot_id alias_id session_id input_text : String)
    (session_attributes : Option (List (String × String))) : List String :=
  let response_message := "Okay, you asked about '" ++ (input_text ++ "'.")
  let response_message2 :=
    match session_attributes with
    | some attrs =>
      match attrs.lookup "currentLocation" with
      | some loc => response_message ++ (" Location context is '" ++ (loc ++ "'."))
      | none => response_message
    | none => response_message
  let low := pyLower input_text
  if strContainsSub low "risk" || strContainsSub low "high" then
    ["Weather indicates high risk based on your query.",
     "Please provide the filename of the uploaded image for analysis."]
  else if strContainsSub low "filename" || strContainsSub low ".jpg"
          || strContainsSub low ".png" then
    ["Okay, analyzing image '" ++ (input_text ++ "' (simulated)."),
     "Diagnosis: Healthy (Confidence: 95.0%) - This is a stub result."]
  else
    [response_message2]

end AwsUtilsStub

/-- A chat transcript entry from the Streamlit app:
`{"role": "user"/"assistant", "content": ...}`. -/
structure Msg where
  role : String
  content : String
deriving DecidableEq

/-- The Streamlit session state fields used by `5_streamlit_app.py`.
`current_weather` is an `Option` so that "unset" is representable; the app
initialises it immediately, which the theorems below make explicit.
`uploaded_image` abstracts the PIL image object to its presence. -/
structure SessionState where
  lex_session_id : String
  messages : List Msg
  current_location : String
  current_weather : Option WeatherResult
  uploaded_image : Option Unit
  uploaded_image_key : Option String
deriving DecidableEq

/-- `AVAILABLE_LOCATIONS = list(aws_utils_stub.LOCATION_COORDS.keys())` from the
app (the app imports the stub module). -/
def AVAILABLE_LOCATIONS : List String := AwsUtilsStub.LOCATION_COORDS.map Prod.fst

/-- The session-state initialisation block of `5_streamlit_app.py`: fresh
session id, empty transcript, `current_location = aws_utils_stub.DEFAULT_LOCATION`,
an all-N/A weather dict, and no uploaded image. -/
def initState (session_id : String) : SessionState :=
  { lex_session_id := session_id,
    messages := [],
    current_location := AwsUtilsStub.DEFAULT_LOCATION,
    current_weather := some ⟨Reading.na, Reading.na, Reading.na, none⟩,
    uploaded_image := none,
    uploaded_image_key := none }

/-- `update_weather` from the app: replace `current_weather` with the result of
the imported weather fetcher (the fetcher's return value is the parameter). -/
def update_weather (s : SessionState) (fetch_result : WeatherResult) : SessionState :=
  { s with current_weather := some fetch_result }

/-- The location-selector handler: when the selected location differs from the
current one, set `current_location` and refresh the weather; otherwise nothing
changes. -/
def locationChangeHandler (s : SessionState) (selected_location : String)
    (fetch_result : WeatherResult) : SessionState :=
  if selected_location ≠ s.current_location then
    update_weather { s with current_location := selected_location } fetch_result
  else s

/-- Observable steps of a user action, used to state ordering properties. -/
inductive Event
  | appendUser (text : String)
  | callEngine (session_id text : String) (context : List (String × String))
  | appendAssistant (text : String)
  | fetchWeather (location : String)
deriving DecidableEq

/-- The chat-input handler of the app, as the sequence of observable events plus
the resulting state.  A falsy (empty) prompt does not enter the handler (the
`if prompt := st.chat_input(...)` guard).  Otherwise: append the user turn,
call `aws_utils_stub.post_text_to_lex` with the session id, the prompt and
`{"currentLocation": current_location}`, join the replies with a blank line,
and append the assistant turn. -/
def sendMessageTrace (bot_id alias_id : String) (s : SessionState) (prompt : String) :
    List Event × SessionState :=
  if prompt = "" then ([], s)
  else
    let lex_attributes := [("currentLocation", s.current_location)]
    let bot_responses :=
      AwsUtilsStub.post_text_to_lex bot_id alias_id s.lex_session_id prompt
        (some lex_attributes)
    let full_response := pyJoin "\n\n" bot_responses
    ([Event.appendUser prompt,
      Event.callEngine s.lex_session_id prompt lex_attributes,
      Event.appendAssistant full_response],
     { s with messages := s.messages ++
         [Msg.mk "user" prompt, Msg.mk "assistant" full_response] })

/-- The upload success/failure handling of the app: a truthy `s3_object_name`
stores the image and `os.path.basename(s3_object_name)` as
`uploaded_image_key`; a falsy result clears both fields.  The transcript is not
touched. -/
def uploadHandler (s : SessionState) (s3_object_name : Option String) : SessionState :=
  match s3_object_name with
  | some key =>
    { s with uploaded_image := some (), uploaded_image_key := some (os_path_basename key) }
  | none =>
    { s with uploaded_image := none, uploaded_image_key := none }

/-- The condition of the initial-weather-fetch block at the bottom of the app:
`"current_weather" not in st.session_state or current_weather["temp"] == "N/A"`. -/
def tempIsNA (s : SessionState) : Bool :=
  match s.current_weather with
  | none => true
  | some w => match w.temp with
    | Reading.na => true
    | Reading.val _ => false

/-- The initial-weather-fetch block at the bottom of the app: if the weather is
still the all-N/A placeholder, fetch weather for the current location. -/
def initialWeatherFetch (s : SessionState) (fetch_result : WeatherResult) :
    List Event × SessionState :=
  if tempIsNA s then
    ([Event.fetchWeather s.current_location], update_weather s fetch_result)
  else ([], s)

/-- One completed user action of the app.  Collaborator outcomes (weather fetch
result, S3 result) travel with the action. -/
inductive AppAction
  | changeLocation (selected_location : String) (fetch_result : WeatherResult)
  | sendMessage (bot_id alias_id prompt : String)
  | uploadImage (s3_result : Option String)

/-- The state transition performed by one completed user action. -/
def step (s : SessionState) : AppAction → SessionState
  | AppAction.changeLocation sel r => locationChangeHandler s sel r
  | AppAction.sendMessage bid aid p => (sendMessageTrace bid aid s p).2
  | AppAction.uploadImage r => uploadHandler s r

/-- The session states reachable from initialisation by completed user actions. -/
inductive Reachable : SessionState → Prop
  | init (session_id : String) : Reachable (initState session_id)
  | next {s : SessionState} (a : AppAction) : Reachable s → Reachable (step s a)

/-- The transcript shape invariant: turns come in user/assistant pairs, in that
order (this entails alternation starting with a user turn, and even length). -/
def alternatingPairs : List Msg → Bool
  | [] => true
  | [_] => false
  | u :: a :: rest => u.role == "user" && a.role == "assistant" && alternatingPairs rest

theorem strDataAppend (a b : String) : (a ++ b).data = a.data ++ b.data := rfl

theorem strDataNilIff (s : String) : s.data = [] ↔ s = "" := by
  cases s with
  | mk d =>
    constructor
    · intro h
      have hd : d = [] := h
      subst hd
      rfl
    · intro h
      rw [h]

theorem strHeadAppend (a b : String) (c : Char) (h : a.data.head? = some c) :
    (a ++ b).data.head? = some c := by
  rw [strDataAppend]
  cases had : a.data with
  | nil => rw [had] at h; cases h
  | cons x xs => rw [had] at h; cases h; rfl

theorem strNeOfHead (a b : String) (h : a.data.head? ≠ b.data.head?) : a ≠ b :=
  fun e => h (by rw [e])

theorem strLenAppend (a b : String) :
    (a ++ b).data.length = a.data.length + b.data.length := by
  rw [strDataAppend, List.length_append]

theorem strNeEmptyOfDataNe (s : String) (h : s.data ≠ []) : s ≠ "" :=
  fun e => h ((strDataNilIff s).mpr e)

theorem appendDataNe (a b : String) (h : a.data ≠ []) : (a ++ b).data ≠ [] := by
  rw [strDataAppend]
  intro e
  exact h (List.append_eq_nil.mp e).1

theorem pyJoinNeEmpty (sep hd : String) (tl : List String) (h : hd.data ≠ []) :
    pyJoin sep (hd :: tl) ≠ "" := by
  cases tl with
  | nil => exact strNeEmptyOfDataNe hd h
  | cons y ys =>
    show hd ++ sep ++ pyJoin sep (y :: ys) ≠ ""
    exact strNeEmptyOfDataNe _ (appendDataNe _ _ (appendDataNe _ _ h))

theorem takeWhileAppendAll {α : Type} (p : α → Bool) (l1 l2 : List α)
    (h : ∀ c ∈ l1, p c = true) :
    (l1 ++ l2).takeWhile p = l1 ++ l2.takeWhile p := by
  induction l1 with
  | nil => simp
  | cons x xs ih =>
    have hx : p x = true := h x (by simp)
    simp only [List.cons_append, List.takeWhile_cons, hx, if_true]
    rw [ih (fun c hc => h c (by simp [hc]))]

theorem takeWhileEqSelfOfAll {α : Type} (p : α → Bool) (l : List α)
    (h : ∀ c ∈ l, p c = true) : l.takeWhile p = l := by
  have := takeWhileAppendAll p l [] h
  simpa using this

theorem basenameNoSlash (name : String) (hn : ∀ c ∈ name.data, c ≠ '/') :
    os_path_basename name = name := by
  unfold os_path_basename
  rw [takeWhileEqSelfOfAll _ _ (by
    intro c hc
    simp only [List.mem_reverse] at hc
    simpa using hn c hc)]
  apply String.ext
  simp

theorem basenameUploadsKey (token name : String)
    (ht : ∀ c ∈ token.data, c ≠ '/') (hn : ∀ c ∈ name.data, c ≠ '/') :
    os_path_basename ("uploads/" ++ token ++ "-" ++ name) = token ++ "-" ++ name := by
  unfold os_path_basename
  have hdata : ("uploads/" ++ token ++ "-" ++ name).data
      = "uploads/".data ++ token.data ++ '-' :: name.data := by
    simp [strDataAppend]
  rw [hdata]
  have hrev : ("uploads/".data ++ token.data ++ '-' :: name.data).reverse
      = (name.data.reverse ++ '-' :: token.data.reverse) ++ "uploads/".data.reverse := by
    simp
  rw [hrev]
  rw [takeWhileAppendAll _ _ _ (by
    intro c hc
    simp only [List.mem_append, List.mem_reverse, List.mem_cons] at hc
    rcases hc with hc | hc | hc
    · simpa using hn c hc
    · subst hc; decide
    · simpa using ht c hc)]
  have hup : "uploads/".data.reverse.takeWhile (fun c => decide (c ≠ '/')) = [] := by decide
  rw [hup]
  apply String.ext
  have : (token ++ "-" ++ name).data = token.data ++ '-' :: name.data := by
    simp [strDataAppend]
  rw [this]
  simp

theorem alternatingPairsAppendPair (u v : String) :
    ∀ l : List Msg, alternatingPairs l = true →
      alternatingPairs (l ++ [Msg.mk "user" u, Msg.mk "assistant" v]) = true
  | [], _ => rfl
  | [x], h => by simp [alternatingPairs] at h
  | a :: b :: rest, h => by
    simp only [alternatingPairs, Bool.and_eq_true] at h
    simp only [List.cons_append, alternatingPairs, Bool.and_eq_true]
    exact ⟨h.1, alternatingPairsAppendPair u v rest h.2⟩

theorem alternatingPairsLengthEven :
    ∀ l : List Msg, alternatingPairs l = true → l.length % 2 = 0
  | [], _ => rfl
  | [x], h => by simp [alternatingPairs] at h
  | a :: b :: rest, h => by
    simp only [alternatingPairs, Bool.and_eq_true] at h
    have := alternatingPairsLengthEven rest h.2
    simp only [List.length_cons]
    omega

theorem getCoordinatesOfLowerEq (v name : String) (h : pyLower v = pyLower name)
    (hname : name ≠ "") : AwsUtils.get_coordinates v = AwsUtils.get_coordinates name := by
  have hv : v ≠ "" := by
    intro hv0
    apply hname
    subst hv0
    have hd : name.data.map pyLowerChar = [] := by
      have := congrArg String.data h
      simpa [pyLower] using this.symm
    exact (strDataNilIff name).mp (List.map_eq_nil_iff.mp hd)
  unfold AwsUtils.get_coordinates
  rw [if_neg hv, if_neg hname, h]

theorem stubLexReplyHeadNe (bot_id alias_id session_id input_text loc : String) :
    ∃ hd tl, AwsUtilsStub.post_text_to_lex bot_id alias_id session_id input_text
        (some [("currentLocation", loc)]) = hd :: tl ∧ hd.data ≠ [] := by
  unfold AwsUtilsStub.post_text_to_lex
  have hlk : List.lookup "currentLocation" [("currentLocation", loc)] = some loc := by
    simp [List.lookup]
  simp only [hlk]
  cases h1 : (strContainsSub (pyLower input_text) "risk"
      || strContainsSub (pyLower input_text) "high") with
  | true =>
    refine ⟨"Weather indicates high risk based on your query.",
      ["Please provide the filename of the uploaded image for analysis."], ?_, by decide⟩
    simp [h1]
  | false =>
    cases h2 : (strContainsSub (pyLower input_text) "filename"
        || strContainsSub (pyLower input_text) ".jpg"
        || strContainsSub (pyLower input_text) ".png") with
    | true =>
      refine ⟨"Okay, analyzing image '" ++ (input_text ++ "' (simulated)."),
        ["Diagnosis: Healthy (Confidence: 95.0%) - This is a stub result."], ?_, ?_⟩
      · simp [h1, h2]
      · exact appendDataNe _ _ (by decide)
    | false =>
      refine ⟨"Okay, you asked about '" ++ (input_text ++ "'.")
          ++ (" Location context is '" ++ (loc ++ "'.")), [], ?_, ?_⟩
      · simp [h1, h2]
      · exact appendDataNe _ _ (appendDataNe _ _ (by decide))

/-- C7: for every registered location name, `get_coordinates` applied to any
upper/lower case variation of that name (any string whose Python-lowered form
matches the name's) returns the same coordinates as the name itself, and the
accented and de-accented spelling variants of the same place (malmö/malmo,
göteborg/goteborg, örebro/orebro, linköping/linkoping, västerås/vasteras)
resolve to identical coordinates. -/
theorem c7_resolve_case_insensitive :
    (∀ name ∈ AwsUtils.LOCATION_COORDS.map Prod.fst,
       ∀ v : String, pyLower v = pyLower name →
         AwsUtils.get_coordinates v = AwsUtils.get_coordinates name)
    ∧ AwsUtils.get_coordinates "malmö" = AwsUtils.get_coordinates "malmo"
    ∧ AwsUtils.get_coordinates "göteborg" = AwsUtils.get_coordinates "goteborg"
    ∧ AwsUtils.get_coordinates "örebro" = AwsUtils.get_coordinates "orebro"
    ∧ AwsUtils.get_coordinates "linköping" = AwsUtils.get_coordinates "linkoping"
    ∧ AwsUtils.get_coordinates "västerås" = AwsUtils.get_coordinates "vasteras" := by
  refine ⟨?_, by decide, by decide, by decide, by decide, by decide⟩
  intro name hmem v hv
  exact getCoordinatesOfLowerEq v name hv
    ((by decide : ∀ n ∈ AwsUtils.LOCATION_COORDS.map Prod.fst, n ≠ "") name hmem)

/-- Witness for C7: the concrete case variation "UPPSALA" of the registered
name "uppsala" resolves to the same (and the expected) coordinates. -/
theorem c7_witness :
    AwsUtils.get_coordinates "UPPSALA" = AwsUtils.get_coordinates "uppsala"
    ∧ AwsUtils.get_coordinates "uppsala" = (5986, 1764) :=
  ⟨c7_resolve_case_insensitive.1 "uppsala" (by decide) "UPPSALA" (by decide), by decide⟩

/-- C5: `get_weather_for_location` is total; for every failure case — network or
HTTP error, JSON decode error, missing/empty `timeSeries`, a parameter with no
values (the dict-comprehension IndexError path), or any other exception — it
returns a result dict carrying a human-readable error message and "N/A" for all
three readings. -/
theorem c5_weather_fetch_total (loc : String) :
    AwsUtils.get_weather_for_location AwsUtils.FetchOutcome.requestError loc
      = ⟨Reading.na, Reading.na, Reading.na, some "Could not reach weather service."⟩
    ∧ AwsUtils.get_weather_for_location AwsUtils.FetchOutcome.jsonError loc
      = ⟨Reading.na, Reading.na, Reading.na, some "Error reading weather data."⟩
    ∧ AwsUtils.get_weather_for_location AwsUtils.FetchOutcome.unexpectedError loc
      = ⟨Reading.na, Reading.na, Reading.na, some "Unexpected weather error."⟩
    ∧ (∀ data : AwsUtils.SmhiData, data.timeSeries = [] →
        AwsUtils.get_weather_for_location (AwsUtils.FetchOutcome.ok data) loc
          = ⟨Reading.na, Reading.na, Reading.na, some "SMHI API data format error."⟩)
    ∧ (∀ (data : AwsUtils.SmhiData) (f : AwsUtils.SmhiForecast)
          (rest : List AwsUtils.SmhiForecast),
        data.timeSeries = f :: rest → AwsUtils.extractParams f.parameters = none →
        AwsUtils.get_weather_for_location (AwsUtils.FetchOutcome.ok data) loc
          = ⟨Reading.na, Reading.na, Reading.na, some "Unexpected weather error."⟩) := by
  refine ⟨rfl, rfl, rfl, ?_, ?_⟩
  · intro data h
    simp [AwsUtils.get_weather_for_location, h]
  · intro data f rest h hex
    simp [AwsUtils.get_weather_for_location, h, hex]

/-- Witness for C5: concrete malformed payloads (empty `timeSeries`; a
parameter with an empty value list) produce the expected error snapshots. -/
theorem c5_witness :
    AwsUtils.get_weather_for_location (AwsUtils.FetchOutcome.ok ⟨[]⟩) "uppsala"
      = ⟨Reading.na, Reading.na, Reading.na, some "SMHI API data format error."⟩
    ∧ AwsUtils.get_weather_for_location (AwsUtils.FetchOutcome.ok ⟨[⟨[⟨"t", []⟩]⟩]⟩) "uppsala"
      = ⟨Reading.na, Reading.na, Reading.na, some "Unexpected weather error."⟩ :=
  ⟨(c5_weather_fetch_total "uppsala").2.2.2.1 ⟨[]⟩ rfl,
   (c5_weather_fetch_total "uppsala").2.2.2.2 ⟨[⟨[⟨"t", []⟩]⟩]⟩ ⟨[⟨"t", []⟩]⟩ [] rfl rfl⟩

/-- C9 counterexample: a parsed 2xx payload whose first forecast has an empty
parameter list yields a snapshot with `error = none` (it "carries no error")
while all three readings are "N/A" — contradicting the claim that a successful
no-error fetch always has numeric readings. -/
theorem c9_counterexample :
    AwsUtils.get_weather_for_location (AwsUtils.FetchOutcome.ok ⟨[⟨[]⟩]⟩) "uppsala"
      = ⟨Reading.na, Reading.na, Reading.na, none⟩ := by decide

/-- C9 amended: when the fetch succeeds and the first forecast's parameters
extract cleanly and contain entries named "t", "r" and "pmean", the snapshot's
three readings are numeric and the error is unset; a missing parameter instead
yields an "N/A" reading with the error still unset. -/
theorem c9_amended_numeric_readings (loc : String) (data : AwsUtils.SmhiData)
    (f : AwsUtils.SmhiForecast) (rest : List AwsUtils.SmhiForecast)
    (h : data.timeSeries = f :: rest)
    (ps : List (String × Int)) (hex : AwsUtils.extractParams f.parameters = some ps)
    (tv rv pv : Int)
    (ht : AwsUtils.dictGet ps "t" = some tv)
    (hr : AwsUtils.dictGet ps "r" = some rv)
    (hp : AwsUtils.dictGet ps "pmean" = some pv) :
    AwsUtils.get_weather_for_location (AwsUtils.FetchOutcome.ok data) loc
      = ⟨Reading.val tv, Reading.val rv, Reading.val pv, none⟩ := by
  simp [AwsUtils.get_weather_for_location, h, hex, ht, hr, hp, AwsUtils.readingOf]

/-- Witness for the amended C9 at a concrete complete payload. -/
theorem c9_witness :
    AwsUtils.get_weather_for_location
        (AwsUtils.FetchOutcome.ok ⟨[⟨[⟨"t", [201]⟩, ⟨"r", [80]⟩, ⟨"pmean", [3]⟩]⟩]⟩) "lund"
      = ⟨Reading.val 201, Reading.val 80, Reading.val 3, none⟩ :=
  c9_amended_numeric_readings "lund" _ _ _ rfl
    [("t", 201), ("r", 80), ("pmean", 3)] (by decide) 201 80 3
    (by decide) (by decide) (by decide)

theorem lengthIfEmpty {α : Type} (l : List α) (x : α) :
    1 ≤ (if l.isEmpty then [x] else l).length := by
  cases l with
  | nil => simp
  | cons y ys => simp

/-- C6 counterexample: two Lex failures that both fall in the "generic failure"
category (neither an authorization nor a configuration error) produce two
different reply strings, because the generic branch interpolates the error code
into the message — so the generic category does not map to one fixed fallback
string as claimed. -/
theorem c6_counterexample :
    AwsUtils.post_text_to_lex (AwsUtils.LexOutcome.clientError (some "ThrottlingException"))
      ≠ AwsUtils.post_text_to_lex
          (AwsUtils.LexOutcome.clientError (some "DependencyFailedException")) := by decide

/-- C6 amended: `post_text_to_lex` always returns at least one reply and never
raises; authorization failure and configuration/bot-not-found failure each map
to their own fixed fallback string; every other `ClientError` maps to a message
that embeds the error code (hence varies with it) but is always distinct from
the two fixed strings and from the fixed non-`ClientError` fallback
"An unexpected error occurred.". -/
theorem c6_amended_failure_replies :
    (∀ o : AwsUtils.LexOutcome, 1 ≤ (AwsUtils.post_text_to_lex o).length)
    ∧ AwsUtils.post_text_to_lex (AwsUtils.LexOutcome.clientError (some "AccessDeniedException"))
        = ["Error: Access denied when calling Lex. Check UI credentials."]
    ∧ AwsUtils.post_text_to_lex (AwsUtils.LexOutcome.clientError (some "ResourceNotFoundException"))
        = ["Error: Lex bot or alias not found. Check configuration."]
    ∧ AwsUtils.post_text_to_lex AwsUtils.LexOutcome.unexpectedError
        = ["An unexpected error occurred."]
    ∧ (∀ error_code : Option String, error_code ≠ some "AccessDeniedException" →
        error_code ≠ some "ResourceNotFoundException" →
        AwsUtils.post_text_to_lex (AwsUtils.LexOutcome.clientError error_code)
            = [AwsUtils.genericLexReply error_code]
        ∧ AwsUtils.genericLexReply error_code
            ≠ "Error: Access denied when calling Lex. Check UI credentials."
        ∧ AwsUtils.genericLexReply error_code
            ≠ "Error: Lex bot or alias not found. Check configuration."
        ∧ AwsUtils.genericLexReply error_code ≠ "An unexpected error occurred.") := by
  have hghead : ∀ error_code : Option String,
      (AwsUtils.genericLexReply error_code).data.head? = some 'A' := by
    intro error_code
    unfold AwsUtils.genericLexReply
    exact strHeadAppend _ _ _ (by decide)
  have hglen : ∀ error_code : Option String,
      (AwsUtils.genericLexReply error_code).data.length
        = "An error occurred communicating with the bot (".data.length
          + ((AwsUtils.codeRepr error_code).data.length + (")." : String).data.length) := by
    intro error_code
    unfold AwsUtils.genericLexReply
    rw [strLenAppend, strLenAppend]
  refine ⟨?_, by decide, by decide, by decide, ?_⟩
  · intro o
    cases o with
    | ok response_messages => exact lengthIfEmpty _ _
    | clientError error_code =>
      simp only [AwsUtils.post_text_to_lex]
      split
      · simp
      · split <;> simp
    | unexpectedError => simp [AwsUtils.post_text_to_lex]
  · intro error_code h1 h2
    refine ⟨?_, ?_, ?_, ?_⟩
    · simp only [AwsUtils.post_text_to_lex]
      rw [if_neg h1, if_neg h2]
    · refine strNeOfHead _ _ ?_
      rw [hghead error_code]
      decide
    · refine strNeOfHead _ _ ?_
      rw [hghead error_code]
      decide
    · intro e
      have hlen := congrArg (fun t => t.data.length) e
      simp only at hlen
      rw [hglen error_code] at hlen
      simp at hlen
      omega

/-- Witness for the amended C6 at a concrete generic error code. -/
theorem c6_witness :
    AwsUtils.post_text_to_lex (AwsUtils.LexOutcome.clientError (some "ThrottlingException"))
      = [AwsUtils.genericLexReply (some "ThrottlingException")]
    ∧ AwsUtils.genericLexReply (some "ThrottlingException")
        ≠ "Error: Access denied when calling Lex. Check UI credentials."
    ∧ AwsUtils.genericLexReply (some "ThrottlingException")
        ≠ "Error: Lex bot or alias not found. Check configuration."
    ∧ AwsUtils.genericLexReply (some "ThrottlingException")
        ≠ "An unexpected error occurred." :=
  c6_amended_failure_replies.2.2.2.2 (some "ThrottlingException") (by decide) (by decide)

/-- C1 (code evaluation at the failing input): when the caller supplies
`object_name` — as the app always does — `upload_to_s3` returns the suggested
name verbatim: the `../` and `/` tokens survive into the storage key, no random
token is incorporated, and two calls with the same suggested name and distinct
fresh tokens return identical keys.  The sanitising, token-prefixing logic
exists but runs only in the branch where no name was supplied (last conjunct),
and the repository's own stub emulates the sanitised format unconditionally. -/
theorem c1_upload_key_unsanitized :
    AwsUtils.upload_to_s3 true "TOKEN-A" none (some "../secret.jpg") = some "../secret.jpg"
    ∧ AwsUtils.upload_to_s3 true "TOKEN-B" none (some "../secret.jpg") = some "../secret.jpg"
    ∧ strContainsSub "../secret.jpg" ".." = true
    ∧ strContainsSub "../secret.jpg" "/" = true
    ∧ AwsUtils.upload_to_s3 true "TOKEN-A" (some "../secret.jpg") none
        = some "uploads/TOKEN-A-secret.jpg"
    ∧ AwsUtilsStub.upload_to_s3 "TOKEN-A" none (some "../secret.jpg")
        = "uploads/TOKEN-A-secret.jpg" := by
  refine ⟨rfl, rfl, by decide, by decide, by decide, by decide⟩

/-- C2 counterexample: after a successful upload of `plant.jpg` through the
uploader's `uploads/<token>-<name>` key format, the stored display name is the
full base name `TOKEN123-plant.jpg` — it contains the random token and is not
the sanitized original filename `plant.jpg`. -/
theorem c2_counterexample :
    (uploadHandler (initState "sid")
        (some (AwsUtilsStub.upload_to_s3 "TOKEN123" none (some "plant.jpg")))).uploaded_image_key
      = some "TOKEN123-plant.jpg"
    ∧ (uploadHandler (initState "sid")
        (some (AwsUtilsStub.upload_to_s3 "TOKEN123" none (some "plant.jpg")))).uploaded_image_key
      ≠ some "plant.jpg"
    ∧ strContainsSub "TOKEN123-plant.jpg" "TOKEN123" = true := by decide

/-- C2 amended: on a successful upload the stored display name
(`uploaded_image_key`) is `os.path.basename` of the returned storage key; for
the uploader's `uploads/<token>-<sanitized name>` key format that base name is
`<token>-<sanitized name>` — it includes the uploader's random uniqueness
token rather than excluding it. -/
theorem c2_amended_display_name (s : SessionState) (token name : String)
    (ht : ∀ c ∈ token.data, c ≠ '/') (hn : ∀ c ∈ name.data, c ≠ '/') :
    (uploadHandler s
        (some (AwsUtilsStub.upload_to_s3 token none (some name)))).uploaded_image_key
      = some (token ++ "-" ++ name) := by
  have hkey : AwsUtilsStub.upload_to_s3 token none (some name)
      = "uploads/" ++ token ++ "-" ++ os_path_basename name := rfl
  have hbn : os_path_basename name = name := basenameNoSlash name hn
  simp only [uploadHandler, hkey, hbn]
  rw [basenameUploadsKey token name ht hn]

/-- Witness for the amended C2 at a concrete token and filename. -/
theorem c2_witness :
    (uploadHandler (initState "sid")
        (some (AwsUtilsStub.upload_to_s3 "TOKEN123" none (some "plant.jpg")))).uploaded_image_key
      = some ("TOKEN123" ++ "-" ++ "plant.jpg") :=
  c2_amended_display_name (initState "sid") "TOKEN123" "plant.jpg" (by decide) (by decide)

/-- C3 counterexample: the app imports the stub module, whose default location
is "Stockholm", so the session's initial location is not "uppsala". -/
theorem c3_counterexample :
    (initState "sid").current_location = "Stockholm"
    ∧ (initState "sid").current_location ≠ "uppsala"
    ∧ (initState "sid").current_location ≠ AwsUtils.DEFAULT_LOCATION := by decide

/-- C3 amended: at session initialization the location is set to the imported
helper module's default — the stub's "Stockholm" in the code as wired — and the
initial weather snapshot is fetched for that location; the real module
`aws_utils` is the one whose registry default is "uppsala" with coordinates
(59.86, 17.64).  The transcript starts empty. -/
theorem c3_amended_init_default (session_id : String) (fetch_result : WeatherResult) :
    (initState session_id).current_location = AwsUtilsStub.DEFAULT_LOCATION
    ∧ AwsUtilsStub.DEFAULT_LOCATION = "Stockholm"
    ∧ AwsUtils.DEFAULT_LOCATION = "uppsala"
    ∧ AwsUtils.DEFAULT_COORDS = (5986, 1764)
    ∧ AwsUtils.LOCATION_COORDS.lookup "uppsala" = some (5986, 1764)
    ∧ (initialWeatherFetch (initState session_id) fetch_result).1
        = [Event.fetchWeather AwsUtilsStub.DEFAULT_LOCATION]
    ∧ (initialWeatherFetch (initState session_id) fetch_result).2.current_weather
        = some fetch_result
    ∧ (initState session_id).messages = [] := by
  exact ⟨rfl, rfl, rfl, rfl, by decide, rfl, rfl, rfl⟩

/-- C4: for every non-empty prompt, the chat handler appends exactly one user
turn containing the prompt strictly before calling the engine, calls the engine
with the session id, the prompt and context `{"currentLocation": location}`,
then appends exactly one assistant turn whose content is the reply sequence
joined with a blank line between replies and is non-empty; no other session
field changes. -/
theorem c4_send_message (bot_id alias_id : String) (s : SessionState) (prompt : String)
    (h : prompt ≠ "") :
    (sendMessageTrace bot_id alias_id s prompt).1 =
      [Event.appendUser prompt,
       Event.callEngine s.lex_session_id prompt [("currentLocation", s.current_location)],
       Event.appendAssistant (pyJoin "\n\n" (AwsUtilsStub.post_text_to_lex bot_id alias_id
         s.lex_session_id prompt (some [("currentLocation", s.current_location)])))]
    ∧ (sendMessageTrace bot_id alias_id s prompt).2.messages =
        s.messages ++
          [Msg.mk "user" prompt,
           Msg.mk "assistant" (pyJoin "\n\n" (AwsUtilsStub.post_text_to_lex bot_id alias_id
             s.lex_session_id prompt (some [("currentLocation", s.current_location)])))]
    ∧ pyJoin "\n\n" (AwsUtilsStub.post_text_to_lex bot_id alias_id s.lex_session_id prompt
        (some [("currentLocation", s.current_location)])) ≠ ""
    ∧ (sendMessageTrace bot_id alias_id s prompt).2.current_location = s.current_location
    ∧ (sendMessageTrace bot_id alias_id s prompt).2.lex_session_id = s.lex_session_id := by
  obtain ⟨hd, tl, heq, hne⟩ :=
    stubLexReplyHeadNe bot_id alias_id s.lex_session_id prompt s.current_location
  refine ⟨?_, ?_, ?_, ?_, ?_⟩
  · simp [sendMessageTrace, h]
  · simp [sendMessageTrace, h]
  · rw [heq]
    exact pyJoinNeEmpty _ _ _ hne
  · simp [sendMessageTrace, h]
  · simp [sendMessageTrace, h]

/-- Witness for C4 at the concrete prompt "hello" in a fresh session. -/
theorem c4_witness :
    (sendMessageTrace "bot" "alias" (initState "sid") "hello").1 =
      [Event.appendUser "hello",
       Event.callEngine "sid" "hello" [("currentLocation", "Stockholm")],
       Event.appendAssistant (pyJoin "\n\n" (AwsUtilsStub.post_text_to_lex "bot" "alias"
         "sid" "hello" (some [("currentLocation", "Stockholm")])))]
    ∧ pyJoin "\n\n" (AwsUtilsStub.post_text_to_lex "bot" "alias" "sid" "hello"
        (some [("currentLocation", "Stockholm")])) ≠ "" := by
  have h := c4_send_message "bot" "alias" (initState "sid") "hello" (by decide)
  exact ⟨h.1, h.2.2.1⟩

/-- C8: changing the location to a registered name different from the current
one sets `current_location` to the new name and replaces `current_weather` by
the fetcher's result — which is always a snapshot value (`some`), whether the
fetch succeeded or produced an error outcome — while the transcript, session id
and upload fields are unchanged. -/
theorem c8_change_location (s : SessionState) (selected_location : String)
    (outcome : AwsUtils.FetchOutcome)
    (hmem : selected_location ∈ AVAILABLE_LOCATIONS)
    (hne : selected_location ≠ s.current_location) :
    (locationChangeHandler s selected_location
        (AwsUtils.get_weather_for_location outcome selected_location)).current_location
      = selected_location
    ∧ (locationChangeHandler s selected_location
        (AwsUtils.get_weather_for_location outcome selected_location)).current_weather
      = some (AwsUtils.get_weather_for_location outcome selected_location)
    ∧ (locationChangeHandler s selected_location
        (AwsUtils.get_weather_for_location outcome selected_location)).messages
      = s.messages
    ∧ (locationChangeHandler s selected_location
        (AwsUtils.get_weather_for_location outcome selected_location)).lex_session_id
      = s.lex_session_id
    ∧ (locationChangeHandler s selected_location
        (AwsUtils.get_weather_for_location outcome selected_location)).uploaded_image
      = s.uploaded_image
    ∧ (locationChangeHandler s selected_location
        (AwsUtils.get_weather_for_location outcome selected_location)).uploaded_image_key
      = s.uploaded_image_key := by
  simp [locationChangeHandler, update_weather, hne]

/-- Witness for C8: a concrete change from the initial "Stockholm" to the
registered "Uppsala" with a failed weather fetch. -/
theorem c8_witness :
    (locationChangeHandler (initState "sid") "Uppsala"
        (AwsUtils.get_weather_for_location AwsUtils.FetchOutcome.requestError
          "Uppsala")).current_location = "Uppsala"
    ∧ (locationChangeHandler (initState "sid") "Uppsala"
        (AwsUtils.get_weather_for_location AwsUtils.FetchOutcome.requestError
          "Uppsala")).current_weather
      = some (AwsUtils.get_weather_for_location AwsUtils.FetchOutcome.requestError "Uppsala")
    ∧ (locationChangeHandler (initState "sid") "Uppsala"
        (AwsUtils.get_weather_for_location AwsUtils.FetchOutcome.requestError
          "Uppsala")).messages = (initState "sid").messages
    ∧ (locationChangeHandler (initState "sid") "Uppsala"
        (AwsUtils.get_weather_for_location AwsUtils.FetchOutcome.requestError
          "Uppsala")).lex_session_id = (initState "sid").lex_session_id
    ∧ (locationChangeHandler (initState "sid") "Uppsala"
        (AwsUtils.get_weather_for_location AwsUtils.FetchOutcome.requestError
          "Uppsala")).uploaded_image = (initState "sid").uploaded_image
    ∧ (locationChangeHandler (initState "sid") "Uppsala"
        (AwsUtils.get_weather_for_location AwsUtils.FetchOutcome.requestError
          "Uppsala")).uploaded_image_key = (initState "sid").uploaded_image_key :=
  c8_change_location (initState "sid") "Uppsala" AwsUtils.FetchOutcome.requestError
    (by decide) (by decide)

theorem stepMessagesShape (s : SessionState) (a : AppAction) :
    (step s a).messages = s.messages
    ∨ ∃ p r, (step s a).messages = s.messages ++ [Msg.mk "user" p, Msg.mk "assistant" r] := by
  cases a with
  | changeLocation sel res =>
    left
    simp only [step, locationChangeHandler]
    split <;> rfl
  | sendMessage bid aid p =>
    by_cases hp : p = ""
    · left
      simp [step, sendMessageTrace, hp]
    · right
      refine ⟨p, pyJoin "\n\n" (AwsUtilsStub.post_text_to_lex bid aid s.lex_session_id p
        (some [("currentLocation", s.current_location)])), ?_⟩
      simp [step, sendMessageTrace, hp]
  | uploadImage r =>
    left
    cases r <;> rfl

/-- C10: initialization makes the transcript empty; every completed user action
either leaves the transcript unchanged or appends exactly one user/assistant
pair at the end (so turns are never removed or reordered, and only the
send-message action appends); consequently in every reachable session state the
transcript strictly alternates user/assistant starting with a user turn and has
even length. -/
theorem c10_transcript_invariant :
    (∀ session_id, (initState session_id).messages = [])
    ∧ (∀ s a, (step s a).messages = s.messages
        ∨ ∃ p r, (step s a).messages = s.messages ++ [Msg.mk "user" p, Msg.mk "assistant" r])
    ∧ (∀ s, Reachable s → alternatingPairs s.messages = true ∧ s.messages.length % 2 = 0) := by
  refine ⟨fun _ => rfl, stepMessagesShape, ?_⟩
  intro s hs
  have halt : alternatingPairs s.messages = true := by
    induction hs with
    | init session_id => rfl
    | next a hprev ih =>
      rcases stepMessagesShape _ a with heq | ⟨p, r, heq⟩
      · rw [heq]
        exact ih
      · rw [heq]
        exact alternatingPairsAppendPair p r _ ih
  exact ⟨halt, alternatingPairsLengthEven _ halt⟩

/-- Witness for C10 at the initial state. -/
theorem c10_witness :
    alternatingPairs (initState "sid").messages = true
    ∧ (initState "sid").messages.length % 2 = 0 :=
  c10_transcript_invariant.2.2 (initState "sid") (Reachable.init "sid")
